import Mathlib

/-!
Authentication flows, session cookie policy, configuration and request metrics.

A shallow embedding of the backend of the streaming application:

* `backend/config/envVars.js`        : `ENV_VARS`
* `backend/utils/generateToken.js`   : `generateTokenAndSetCookie`
* `backend/controllers/auth.controller.js` : `signup`, `login`, `logout`
* `backend/server.js`                : the metrics middleware

Handlers are written in explicit state-passing style.  The Express response
object is a record (`Res`) that the handler updates, the user collection is a
list of documents (`Directory`), and `signup` and `login` return an `Outcome`:
the response they produced, the directory they left behind and the log of
calls they made to their collaborators.  Values that the JavaScript draws from its
surroundings (the clock, the random salt, the random avatar index, the freshly
generated ObjectId) are explicit inputs (`Draws`).  The fields of a signup body
are strings or absent; the password of a login body is any JSON value
(`JsValue`).  The external libraries
`bcryptjs` and `jsonwebtoken` are not part of the repository; their primitive
operations are parameters (`Libs`), their documented control flow is modelled.
-/

set_option autoImplicit false

namespace Netflix

/-! ## JavaScript strings and the e-mail pattern -/

/-- Number of UTF-16 code units of one code point: what one character
contributes to a JavaScript string's `.length`. -/
def utf16Size (c : Char) : Nat :=
  if c.toNat < 65536 then 1 else 2

/-- JavaScript's `s.length`: the number of UTF-16 code units of `s`. -/
def jsLength (s : String) : Nat :=
  (s.toList.map utf16Size).sum

/-- The characters matched by `\s` in a JavaScript regular expression
(white space and line terminators of ECMAScript). -/
def isJsWhitespace (c : Char) : Bool :=
  let n := c.toNat
  n == 9 || n == 10 || n == 11 || n == 12 || n == 13 || n == 32 || n == 160 ||
  n == 5760 || (8192 ≤ n && n ≤ 8202) || n == 8232 || n == 8233 || n == 8239 ||
  n == 8287 || n == 12288 || n == 65279

/-- The fragment of regular expressions used by the controllers: a character
class, a literal character, concatenation and one-or-more repetition. -/
inductive Regex where
  | cls (p : Char → Bool)
  | chr (c : Char)
  | seq (r s : Regex)
  | plus (r : Regex)

/-- One-or-more repetition of a matcher `m`, bounded by `fuel` iterations:
every way of matching `m` at least once from the front of the input,
given as the list of inputs left over. -/
def plusIter (m : List Char → List (List Char)) : Nat → List Char → List (List Char)
  | 0, _ => []
  | fuel + 1, cs => (m cs).flatMap (fun rest => rest :: plusIter m fuel rest)

/-- Backtracking matcher: all the ways `r` matches a prefix of the input,
each given as the input that is left over after the match. -/
def Regex.matchPrefix : Regex → List Char → List (List Char)
  | .cls p, c :: cs => if p c then [cs] else []
  | .cls _, [] => []
  | .chr a, c :: cs => if c = a then [cs] else []
  | .chr _, [] => []
  | .seq r s, cs => (r.matchPrefix cs).flatMap (fun rest => s.matchPrefix rest)
  | .plus r, cs => plusIter r.matchPrefix cs.length cs

/-- `re.test(s)` for a pattern anchored as `^r$`: some match of `r` from
the start of `s` leaves nothing over. -/
def Regex.test (r : Regex) (s : String) : Bool :=
  (r.matchPrefix s.toList).any (fun rest => rest.isEmpty)

/-- The class `[^\s@]`. -/
def notSpaceNorAt (c : Char) : Bool :=
  !(isJsWhitespace c) && !(c == '@')

/-- The pattern `/^[^\s@]+@[^\s@]+\.[^\s@]+$/` of `signup`. -/
def emailRegex : Regex :=
  .seq (.plus (.cls notSpaceNorAt))
    (.seq (.chr '@')
      (.seq (.plus (.cls notSpaceNorAt))
        (.seq (.chr '.') (.plus (.cls notSpaceNorAt)))))

/-! ## Configuration: `backend/config/envVars.js` -/

/-- The variables of `process.env` that the configuration module reads, after
`dotenv.config()` has merged the `.env` file; `none` is an unset variable. -/
structure ProcessEnv where
  MONGO_URI : Option String := none
  PORT : Option String := none
  JWT_SECRET : Option String := none
  NODE_ENV : Option String := none
  USE_HTTPS : Option String := none
  TMDB_API_KEY : Option String := none
  deriving DecidableEq, Repr

/-- The value of `process.env.PORT || 5000`: the variable's text or the number. -/
inductive Port where
  | text (s : String)
  | number (n : Nat)
  deriving DecidableEq, Repr

/-- The exported object `ENV_VARS`; `none` is JavaScript's `undefined`. -/
structure EnvVars where
  MONGO_URI : Option String
  PORT : Port
  JWT_SECRET : Option String
  NODE_ENV : Option String
  USE_HTTPS : Bool
  TMDB_API_KEY : Option String
  deriving DecidableEq, Repr

/-- JavaScript truthiness of a value that is a string or `undefined`. -/
def truthy : Option String → Bool
  | none => false
  | some s => decide (s ≠ "")

/-- The object literal exported by `envVars.js`, as a function of `process.env`. -/
def ENV_VARS (env : ProcessEnv) : EnvVars :=
  { MONGO_URI := env.MONGO_URI
    PORT := match env.PORT with
      | some p => if p ≠ "" then .text p else .number 5000
      | none => .number 5000
    JWT_SECRET :=
      if truthy env.JWT_SECRET then env.JWT_SECRET
      else if env.NODE_ENV = some "test" then some "testsecret" else none
    NODE_ENV := env.NODE_ENV
    USE_HTTPS := decide (env.USE_HTTPS = some "true")
    TMDB_API_KEY := env.TMDB_API_KEY }

/-- Evaluation of the module `envVars.js` at start-up: `dotenv.config()` followed
by the object literal.  Neither statement throws, so the module always
yields its export. -/
def loadEnvVars (env : ProcessEnv) : Except String EnvVars :=
  .ok (ENV_VARS env)

/-! ## External libraries -/

/-- The claim set of a session token: the payload given to `jwt.sign` together
with the issue and expiry times (in seconds) that `jsonwebtoken` adds. -/
structure JwtPayload where
  userId : String
  iat : Nat
  exp : Nat
  deriving DecidableEq, Repr

/-- Primitive operations of the libraries `bcryptjs` and `jsonwebtoken`. -/
structure Libs where
  /-- The digest computed by `bcryptjs.hash(password, salt)`. -/
  hash : String → String → String
  /-- The verdict of `bcryptjs.compare(password, digest)`. -/
  compare : String → String → Bool
  /-- The compact serialisation of a claim set signed with a secret (HS256). -/
  encode : JwtPayload → String → String

/-- The time spans of the `ms` package that `jsonwebtoken` accepts for
`expiresIn`, restricted to a whole count followed by a short unit;
the result is in milliseconds. -/
def ms (span : String) : Option Nat :=
  let digits := span.toList.takeWhile Char.isDigit
  let unit := span.toList.dropWhile Char.isDigit
  if digits.isEmpty then none
  else
    let n := digits.foldl (fun acc c => 10 * acc + (c.toNat - 48)) 0
    if unit = ['m', 's'] then some n
    else if unit = ['s'] then some (n * 1000)
    else if unit = ['m'] then some (n * 60 * 1000)
    else if unit = ['h'] then some (n * 60 * 60 * 1000)
    else if unit = ['d'] then some (n * 24 * 60 * 60 * 1000)
    else if unit = ['w'] then some (n * 7 * 24 * 60 * 60 * 1000)
    else none

/-- The call `jwt.sign(payload, secret, options)` without a callback, with the
payload holding `userId` and the options holding `expiresIn`, at
clock reading `now` (milliseconds): it throws when the secret has no value,
otherwise it stamps the payload with `iat` and `exp` and serialises it. -/
def jwtSign (lib : Libs) (userId : String) (secret : Option String) (expiresIn : String)
    (now : Nat) : Except String (JwtPayload × String) :=
  match secret with
  | none => .error "secretOrPrivateKey must have a value"
  | some key =>
    if key = "" then .error "secretOrPrivateKey must have a value"
    else
      match ms expiresIn with
      | none => .error "expiresIn should be a number of seconds or string representing a timespan"
      | some span =>
        let iat := now / 1000
        let claims : JwtPayload := { userId := userId, iat := iat, exp := iat + span / 1000 }
        .ok (claims, lib.encode claims key)

/-! ## The Express response object -/

/-- The attributes of a `Set-Cookie` header as Express writes them. -/
structure CookieOptions where
  maxAge : Option Nat := none
  expires : Option Nat := none
  httpOnly : Bool := false
  secure : Bool := false
  sameSite : Option String := none
  path : String := "/"
  deriving DecidableEq, Repr

/-- One `Set-Cookie` header of a response. -/
structure Cookie where
  name : String
  value : String
  options : CookieOptions
  deriving DecidableEq, Repr

/-- A user document of the `User` model, `_doc`. -/
structure UserDoc where
  _id : String
  email : String
  password : String
  username : String
  image : String
  deriving DecidableEq, Repr

/-- The JSON bodies the auth controllers send. -/
inductive Body where
  | message (success : Bool) (message : String)
  | user (success : Bool) (user : UserDoc)
  deriving DecidableEq, Repr

/-- The part of the Express response that the handlers write. -/
structure Res where
  statusCode : Nat := 200
  cookies : List Cookie := []
  body : Option Body := none
  deriving DecidableEq, Repr

/-- `res.status(code)`. -/
def Res.status (res : Res) (code : Nat) : Res :=
  { res with statusCode := code }

/-- `res.json(body)`. -/
def Res.json (res : Res) (body : Body) : Res :=
  { res with body := some body }

/-- `res.cookie(name, value, options)`: appends one `Set-Cookie` header. -/
def Res.cookie (res : Res) (name value : String) (options : CookieOptions) : Res :=
  { res with cookies := res.cookies ++ [{ name := name, value := value, options := options }] }

/-- `res.clearCookie(name)`: Express sends the cookie with an empty value and
`expires` set to `new Date(1)` on path `/`. -/
def Res.clearCookie (res : Res) (name : String) : Res :=
  res.cookie name "" { expires := some 1, path := "/" }

/-! ## `backend/utils/generateToken.js` -/

/-- The function `generateTokenAndSetCookie(userId, res)`, with the configuration it
imports and the clock made explicit.  An exception of `jwt.sign` propagates
before `res.cookie` is reached. -/
def generateTokenAndSetCookie (lib : Libs) (cfg : EnvVars) (now : Nat) (userId : String)
    (res : Res) : Except String (String × Res) :=
  match jwtSign lib userId cfg.JWT_SECRET "15d" now with
  | .error e => .error e
  | .ok (_, token) =>
    .ok (token, res.cookie "jwt-netflix" token
      { maxAge := some (15 * 24 * 60 * 60 * 1000)
        httpOnly := true
        secure := decide (cfg.USE_HTTPS = true)
        sameSite := some "strict" })

/-! ## The user directory -/

/-- The `users` collection: the stored documents in insertion order. -/
abbrev Directory := List UserDoc

/-- `User.findOne` with the filter on `email`: the first document whose e-mail is the given one. -/
def Directory.findOneByEmail (dir : Directory) (email : String) : Option UserDoc :=
  dir.find? (fun d => decide (d.email = email))

/-- `User.findOne` with the filter on `username`. -/
def Directory.findOneByUsername (dir : Directory) (username : String) : Option UserDoc :=
  dir.find? (fun d => decide (d.username = username))

/-- Modelled from the spec: the `User` model (`models/user.model.js`) is not among the
sources.  The directory holds e-mail and username unique and enforces it at write
time: `save` inserts the document unless a stored one has the same e-mail or
the same username, in which case it throws a duplicate-key error. -/
def Directory.save (dir : Directory) (doc : UserDoc) : Except String Directory :=
  if dir.any (fun d => decide (d.email = doc.email)) then
    .error "E11000 duplicate key error: email"
  else if dir.any (fun d => decide (d.username = doc.username)) then
    .error "E11000 duplicate key error: username"
  else .ok (dir ++ [doc])

/-- What the other in-flight requests do to the directory while a handler is
suspended: `others k dir` is the directory the handler finds at its `k`-th
access when it left `dir` behind. -/
abbrev Interference := Nat → Directory → Directory

/-- No other request writes while the handler runs. -/
def quiet : Interference := fun _ dir => dir

/-! ## `backend/controllers/auth.controller.js` -/

/-- A JSON value as `express.json()` leaves it in a field of `req.body`;
`undefined` is an absent key, numbers are taken to be whole, and arrays and
objects are not told apart (`object`). -/
inductive JsValue where
  | undefined
  | null
  | bool (b : Bool)
  | number (n : Int)
  | string (s : String)
  | object
  deriving DecidableEq, Repr

/-- JavaScript truthiness of a JSON value: what `!value` negates. -/
def JsValue.truthy : JsValue → Bool
  | .undefined => false
  | .null => false
  | .bool b => b
  | .number n => decide (n ≠ 0)
  | .string s => decide (s ≠ "")
  | .object => true

/-- The operator `typeof`. -/
def JsValue.typeof : JsValue → String
  | .undefined => "undefined"
  | .null => "object"
  | .bool _ => "boolean"
  | .number _ => "number"
  | .string _ => "string"
  | .object => "object"

/-- A field that is a string or absent, as a JSON value. -/
def JsValue.ofOption : Option String → JsValue
  | none => .undefined
  | some s => .string s

/-- The call `await bcryptjs.compare(s, hash)` with a stored digest: `bcryptjs` rejects
with "Illegal arguments" when `s` is not a string, and otherwise gives the
verdict of the comparison. -/
def bcryptCompare (lib : Libs) (s : JsValue) (hash : String) : Except String Bool :=
  match s with
  | .string password => .ok (lib.compare password hash)
  | other => .error ("Illegal arguments: " ++ other.typeof ++ ", string")

/-- The calls a handler makes to the directory and to the libraries, in order. -/
inductive Effect where
  | findOneEmail (email : String)
  | findOneUsername (username : String)
  | genSalt (rounds : Nat)
  | hash (password salt : String)
  | compare (password : JsValue) (digest : String)
  | sign (userId : String)
  | save (doc : UserDoc)
  deriving DecidableEq, Repr

/-- What a handler leaves behind: the response, the directory and the log of its calls. -/
structure Outcome where
  res : Res
  dir : Directory
  log : List Effect
  deriving DecidableEq, Repr

/-- The fields of `req.body` that `signup` reads; a field is a string or is
absent (`none`). -/
structure AuthBody where
  email : Option String := none
  password : Option String := none
  username : Option String := none
  deriving DecidableEq, Repr

/-- The body of a login request: the e-mail is a string or absent, the password
is any JSON value; `login` reads no other key (`username` stands for one). -/
structure LoginBody where
  email : Option String := none
  password : JsValue := .undefined
  username : Option String := none
  deriving DecidableEq, Repr

/-- The values `signup` and `login` draw from their surroundings: the clock
(`Date.now()`, read by `jwt.sign`), the salt of `bcryptjs.genSalt(10)`, the
value of `Math.floor(Math.random() * PROFILE_PICS.length)` and the ObjectId
that `new User` generates. -/
structure Draws where
  now : Nat
  salt : String
  pick : Fin 3
  newId : String
  deriving DecidableEq, Repr

/-- The array `PROFILE_PICS` indexed at one of its three positions. -/
def PROFILE_PICS (i : Fin 3) : String :=
  match i with
  | 0 => "/avatar1.png"
  | 1 => "/avatar2.png"
  | 2 => "/avatar3.png"

/-- The `catch` block shared by the controllers. -/
def internalServerError (res : Res) : Res :=
  (res.status 500).json (.message false "Internal server error")

/-- The controller `signup(req, res)`. -/
def signup (lib : Libs) (cfg : EnvVars) (draws : Draws) (others : Interference)
    (body : AuthBody) (dir : Directory) : Outcome :=
  let res : Res := {}
  if !truthy body.email || !truthy body.password || !truthy body.username then
    ⟨(res.status 400).json (.message false "All fields are required"), dir, []⟩
  else
    let email := body.email.getD ""
    let password := body.password.getD ""
    let username := body.username.getD ""
    if !emailRegex.test email then
      ⟨(res.status 400).json (.message false "Invalid email format"), dir, []⟩
    else if jsLength password < 6 then
      ⟨(res.status 400).json (.message false "Password must be at least 6 characters long"), dir, []⟩
    else
      let dir1 := others 0 dir
      match dir1.findOneByEmail email with
      | some _ =>
        ⟨(res.status 400).json (.message false "Email already exists"), dir1,
          [.findOneEmail email]⟩
      | none =>
        let dir2 := others 1 dir1
        match dir2.findOneByUsername username with
        | some _ =>
          ⟨(res.status 400).json (.message false "Username already exists"), dir2,
            [.findOneEmail email, .findOneUsername username]⟩
        | none =>
          let salt := draws.salt
          let hashedPassword := lib.hash password salt
          let image := PROFILE_PICS draws.pick
          let newUser : UserDoc :=
            { _id := draws.newId, email := email, password := hashedPassword,
              username := username, image := image }
          let log := [.findOneEmail email, .findOneUsername username, .genSalt 10,
            .hash password salt, .sign newUser._id]
          match generateTokenAndSetCookie lib cfg draws.now newUser._id res with
          | .error _ => ⟨internalServerError res, dir2, log⟩
          | .ok (_, res1) =>
            let dir3 := others 2 dir2
            match dir3.save newUser with
            | .error _ => ⟨internalServerError res1, dir3, log ++ [.save newUser]⟩
            | .ok dir4 =>
              ⟨(res1.status 201).json (.user true { newUser with password := "" }), dir4,
                log ++ [.save newUser]⟩

/-- The controller `login(req, res)`; `now` is the clock read by `jwt.sign`. -/
def login (lib : Libs) (cfg : EnvVars) (now : Nat) (body : LoginBody) (dir : Directory) :
    Outcome :=
  let res : Res := {}
  if !truthy body.email || !body.password.truthy then
    ⟨(res.status 400).json (.message false "All fields are required"), dir, []⟩
  else
    let email := body.email.getD ""
    let password := body.password
    match dir.findOneByEmail email with
    | none =>
      ⟨(res.status 404).json (.message false "Invalid credentials"), dir, [.findOneEmail email]⟩
    | some user =>
      let log := [.findOneEmail email, .compare password user.password]
      match bcryptCompare lib password user.password with
      | .error _ => ⟨internalServerError res, dir, log⟩
      | .ok isPasswordCorrect =>
        if !isPasswordCorrect then
          ⟨(res.status 404).json (.message false "Invalid credentials"), dir, log⟩
        else
          match generateTokenAndSetCookie lib cfg now user._id res with
          | .error _ => ⟨internalServerError res, dir, log ++ [.sign user._id]⟩
          | .ok (_, res1) =>
            ⟨(res1.status 200).json (.user true { user with password := "" }), dir,
              log ++ [.sign user._id]⟩

/-- The controller `logout(req, res)`; it reads nothing from the request, whose
cookies are given as `reqCookies`. -/
def logout (_reqCookies : List (String × String)) : Res :=
  let res : Res := {}
  ((res.clearCookie "jwt-netflix").status 200).json (.message true "Logged out successfully")

/-! ## `backend/server.js`: the metrics middleware -/

/-- The label set of the request histogram and of the error counter. -/
structure Labels where
  method : String
  route : String
  status_code : Nat
  deriving DecidableEq, Repr

/-- The three instruments the middleware updates: the gauge
`http_inprogress_requests`, the samples observed by the histogram
`http_request_duration_seconds` (labels and elapsed time) and the increments
of the counter `http_errors_total`. -/
structure Metrics where
  httpInProgress : Int := 0
  httpRequestDurationSeconds : List (Labels × Nat) := []
  httpErrors : List Labels := []
  deriving DecidableEq, Repr

/-- What the middleware reads from the request: `req.method`, `req.route.path`
(absent when no route matched) and `req.path`. -/
structure Req where
  method : String
  routePath : Option String := none
  path : String
  deriving DecidableEq, Repr

/-- The events of a Node `ServerResponse` that concern completion. -/
inductive ResEvent where
  | finish
  | close
  deriving DecidableEq, Repr

/-- A callback registered with `res.on(event, callback)`; when it runs it is given the
response's status code and the clock, and updates the instruments. -/
structure Listener where
  event : ResEvent
  callback : Nat → Nat → Metrics → Metrics

/-- The middleware `app.use((req, res, next) => ...)` up to its call of `next()`, entered
at clock reading `start`: the gauge is incremented, the timer started and one
listener registered for the event `finish`. -/
def metricsMiddleware (req : Req) (start : Nat) (m : Metrics) : Metrics × List Listener :=
  let m1 := { m with httpInProgress := m.httpInProgress + 1 }
  let onFinish : Listener :=
    { event := .finish
      callback := fun statusCode now m =>
        let route := if truthy req.routePath then req.routePath.getD "" else req.path
        let labels : Labels := { method := req.method, route := route, status_code := statusCode }
        let m2 := { m with
          httpRequestDurationSeconds := m.httpRequestDurationSeconds ++ [(labels, now - start)] }
        let m3 := { m2 with httpInProgress := m2.httpInProgress - 1 }
        if statusCode ≥ 400 then { m3 with httpErrors := m3.httpErrors ++ [labels] } else m3 }
  (m1, [onFinish])

/-- How the response of a request comes to its end: it is written out in full
with some status code, or the connection is torn down before that. -/
inductive Completion where
  | finished (statusCode : Nat)
  | aborted
  deriving DecidableEq, Repr

/-- The events Node emits on the response: `finish` once the response has been
handed over in full, followed by `close`; only `close` when the connection
is terminated before the response is complete. -/
def Completion.events : Completion → List ResEvent
  | .finished _ => [.finish, .close]
  | .aborted => [.close]

/-- The status code of the response when its listeners run (Express starts from 200). -/
def Completion.statusCode : Completion → Nat
  | .finished code => code
  | .aborted => 200

/-- `res.emit(event)`: the callbacks registered for the event run in order. -/
def emit (listeners : List Listener) (event : ResEvent) (statusCode now : Nat)
    (m : Metrics) : Metrics :=
  listeners.foldl
    (fun acc l => if l.event = event then l.callback statusCode now acc else acc) m

/-- One request through the middleware: entry at `start`, the downstream handlers,
then the completion events at clock reading `stop`. -/
def serveRequest (req : Req) (start stop : Nat) (c : Completion) (m : Metrics) : Metrics :=
  let (m1, listeners) := metricsMiddleware req start m
  c.events.foldl (fun acc ev => emit listeners ev c.statusCode stop acc) m1

/-! ## Instances for running the handlers on examples -/

/-- A toy instance of the libraries, used to run the handlers on examples: the
digest is the password, a dollar sign and the salt, a password verifies against
a digest that starts with it and a dollar sign, and a token is the secret
followed by the subject. -/
def toyLibs : Libs :=
  { hash := fun password salt => password ++ "$" ++ salt
    compare := fun password digest => (password.toList ++ ['$']).isPrefixOf digest.toList
    encode := fun claims key => key ++ claims.userId }

/-- A second toy instance of the libraries: the digest is the password itself and a
password verifies against the digest equal to it; tokens are as in `toyLibs`. -/
def plainLibs : Libs :=
  { hash := fun password _ => password
    compare := fun password digest => decide (password = digest)
    encode := fun claims key => key ++ claims.userId }

/-- A configuration with a signing secret: the one of the test suite. -/
def testEnv : ProcessEnv :=
  { JWT_SECRET := some "testsecret", NODE_ENV := some "test" }

/-- The request body of the integration test. -/
def testerBody : AuthBody :=
  { email := some "a@b.com", password := some "password", username := some "tester" }

/-- The login request of the integration test. -/
def testerLogin : LoginBody :=
  { email := some "a@b.com", password := .string "password", username := some "tester" }

/-- A login request for the tester's e-mail whose password is a JSON number. -/
def numericLogin : LoginBody :=
  { email := some "a@b.com", password := .number 12345678 }

/-- The draws of one run of `signup`. -/
def testerDraws : Draws :=
  { now := 5000, salt := "salt", pick := 1, newId := "id1" }

/-- The document that `signup` stores for `testerBody` under `testerDraws`. -/
def testerDoc : UserDoc :=
  { _id := "id1", email := "a@b.com", password := "password$salt", username := "tester",
    image := "/avatar2.png" }

/-- A configuration without a signing secret outside the test mode. -/
def devEnv : ProcessEnv :=
  { NODE_ENV := some "development" }

/-- A concurrent signup that takes the tester's e-mail between the pre-checks of
`signup` and its insert: the other requests write at the third access only. -/
def racingSignup : Interference :=
  fun k dir =>
    if k = 2 then
      dir ++ [{ _id := "id0", email := "a@b.com", password := "other$salt",
                username := "rival", image := "/avatar1.png" }]
    else dir

/-- A production environment without a signing secret. -/
def productionEnv : ProcessEnv :=
  { NODE_ENV := some "production", MONGO_URI := some "mongodb://db/netflix" }

/-- A request that no route has matched yet. -/
def trendingReq : Req :=
  { method := "GET", path := "/api/v1/movie/trending" }

/-! ## Vocabulary of the properties -/

/-- The three fields pass the validation of `signup`: each is present and not
empty, the e-mail matches the pattern and the password has at least six
UTF-16 code units. -/
def PassesValidation (email password username : String) : Prop :=
  email ≠ "" ∧ password ≠ "" ∧ username ≠ "" ∧
    emailRegex.test email = true ∧ 6 ≤ jsLength password

/-- The process environment resolves to a signing secret: `JWT_SECRET` is set and
not empty, or `NODE_ENV` is `test`. -/
def HasSecret (env : ProcessEnv) : Prop :=
  (∃ s, env.JWT_SECRET = some s ∧ s ≠ "") ∨ env.NODE_ENV = some "test"

/-- The session cookie that `generateTokenAndSetCookie` writes for a subject at
clock reading `now` under a secret and a TLS flag. -/
def sessionCookie (lib : Libs) (secret : String) (useHttps : Bool) (now : Nat)
    (userId : String) : Cookie :=
  { name := "jwt-netflix"
    value := lib.encode { userId := userId, iat := now / 1000, exp := now / 1000 + 1296000 } secret
    options := { maxAge := some 1296000000, httpOnly := true, secure := useHttps,
                 sameSite := some "strict" } }

/-- The record that `signup` builds with `new User` from the request fields, the
digest of the password and the drawn avatar and identifier. -/
def newUserDoc (lib : Libs) (draws : Draws) (email password username : String) : UserDoc :=
  { _id := draws.newId, email := email, password := lib.hash password draws.salt,
    username := username, image := PROFILE_PICS draws.pick }

/-- The view of a record that the controllers put in a response: every field
of the record except the password, which is the empty string. -/
def sanitized (doc : UserDoc) : UserDoc :=
  { _id := doc._id, email := doc.email, password := "", username := doc.username,
    image := doc.image }

/-- The message of the first validation check of `signup` that a request body
fails, in the order presence of the three fields, e-mail format, password
length; `none` when it passes all three. -/
def firstFailingCheck (body : AuthBody) : Option String :=
  match body.email, body.password, body.username with
  | some email, some password, some username =>
    if email = "" ∨ password = "" ∨ username = "" then some "All fields are required"
    else if emailRegex.test email = false then some "Invalid email format"
    else if jsLength password < 6 then some "Password must be at least 6 characters long"
    else none
  | _, _, _ => some "All fields are required"

/-- A field of the request body is missing or empty. -/
def Missing (field : Option String) : Prop :=
  field = none ∨ field = some ""

/-- The outcome of a signup that is turned down as a duplicate against the
directory `dir`: status 400 with one of the two duplicate messages, no cookie
set, and the directory left as it was. -/
def RejectedAsDuplicate (o : Outcome) (dir : Directory) : Prop :=
  (∃ msg, (msg = "Email already exists" ∨ msg = "Username already exists") ∧
    o.res = { statusCode := 400, cookies := [], body := some (.message false msg) }) ∧
  o.dir = dir

/-- Two stored records agree except possibly in their digests, and the two
password checks give the same verdict on them. -/
def SameUpToDigest (lib lib' : Libs) (password password' : String) (d d' : UserDoc) : Prop :=
  sanitized d = sanitized d' ∧
    lib.compare password d.password = lib'.compare password' d'.password

/-- A piece of an address as the e-mail pattern delimits it: not empty, and with
no character that is white space (as `\s` matches it) or `@`. -/
def AddressPart (part : String) : Prop :=
  part ≠ "" ∧ ∀ ch ∈ part.toList, isJsWhitespace ch = false ∧ ch ≠ '@'

/-! ## Lemmas on the directory -/

theorem findOneByEmail_eq_none_iff (dir : Directory) (email : String) :
    dir.findOneByEmail email = none ↔ ∀ d ∈ dir, d.email ≠ email := by
  simp [Directory.findOneByEmail, List.find?_eq_none]

theorem findOneByUsername_eq_none_iff (dir : Directory) (username : String) :
    dir.findOneByUsername username = none ↔ ∀ d ∈ dir, d.username ≠ username := by
  simp [Directory.findOneByUsername, List.find?_eq_none]

theorem findOneByEmail_some_mem {dir : Directory} {email : String} {d : UserDoc}
    (h : dir.findOneByEmail email = some d) : d ∈ dir ∧ d.email = email := by
  unfold Directory.findOneByEmail at h
  exact ⟨List.mem_of_find?_eq_some h, by simpa using List.find?_some h⟩

theorem findOneByUsername_some_mem {dir : Directory} {username : String} {d : UserDoc}
    (h : dir.findOneByUsername username = some d) : d ∈ dir ∧ d.username = username := by
  unfold Directory.findOneByUsername at h
  exact ⟨List.mem_of_find?_eq_some h, by simpa using List.find?_some h⟩

theorem findOneByEmail_of_mem {dir : Directory} {email : String}
    (h : ∃ d ∈ dir, d.email = email) : ∃ d, dir.findOneByEmail email = some d := by
  cases hf : dir.findOneByEmail email with
  | some d => exact ⟨d, rfl⟩
  | none =>
    obtain ⟨d, hd, he⟩ := h
    exact absurd he ((findOneByEmail_eq_none_iff dir email).1 hf d hd)

theorem findOneByUsername_of_mem {dir : Directory} {username : String}
    (h : ∃ d ∈ dir, d.username = username) : ∃ d, dir.findOneByUsername username = some d := by
  cases hf : dir.findOneByUsername username with
  | some d => exact ⟨d, rfl⟩
  | none =>
    obtain ⟨d, hd, he⟩ := h
    exact absurd he ((findOneByUsername_eq_none_iff dir username).1 hf d hd)

theorem save_fresh {dir : Directory} {doc : UserDoc}
    (he : ∀ d ∈ dir, d.email ≠ doc.email) (hu : ∀ d ∈ dir, d.username ≠ doc.username) :
    dir.save doc = .ok (dir ++ [doc]) := by
  have h1 : dir.any (fun d => decide (d.email = doc.email)) = false := by
    simpa [List.any_eq_false] using he
  have h2 : dir.any (fun d => decide (d.username = doc.username)) = false := by
    simpa [List.any_eq_false] using hu
  simp [Directory.save, h1, h2]

theorem findOneByEmail_append_fresh {dir : Directory} {doc : UserDoc}
    (he : ∀ d ∈ dir, d.email ≠ doc.email) :
    (dir ++ [doc]).findOneByEmail doc.email = some doc := by
  have h := (findOneByEmail_eq_none_iff dir doc.email).2 he
  unfold Directory.findOneByEmail at h ⊢
  simp [List.find?_append, h]

/-! ## Configuration and token lemmas -/

theorem ENV_VARS_secret_of_hasSecret {env : ProcessEnv} (h : HasSecret env) :
    ∃ secret, (ENV_VARS env).JWT_SECRET = some secret ∧ secret ≠ "" := by
  rcases h with ⟨s, hs, hne⟩ | htest
  · exact ⟨s, by simp [ENV_VARS, truthy, hs, hne], hne⟩
  · cases hj : env.JWT_SECRET with
    | none => exact ⟨"testsecret", by simp [ENV_VARS, truthy, hj, htest], by decide⟩
    | some s =>
      by_cases hne : s = ""
      · exact ⟨"testsecret", by simp [ENV_VARS, truthy, hj, htest, hne], by decide⟩
      · exact ⟨s, by simp [ENV_VARS, truthy, hj, hne], hne⟩

theorem ENV_VARS_secret_none_of_not_hasSecret {env : ProcessEnv} (h : ¬ HasSecret env) :
    (ENV_VARS env).JWT_SECRET = none := by
  unfold HasSecret at h
  push_neg at h
  obtain ⟨h1, h2⟩ := h
  cases hj : env.JWT_SECRET with
  | none => simp [ENV_VARS, truthy, hj, h2]
  | some s =>
    have hs : s = "" := by
      by_contra hne
      exact hne (h1 s hj)
    simp [ENV_VARS, truthy, hj, hs, h2]

theorem ms_15d : ms "15d" = some 1296000000 := by decide

theorem generateTokenAndSetCookie_ok (lib : Libs) (cfg : EnvVars) (now : Nat) (userId : String)
    (res : Res) {secret : String} (hs : cfg.JWT_SECRET = some secret) (hne : secret ≠ "") :
    generateTokenAndSetCookie lib cfg now userId res
      = .ok ((sessionCookie lib secret cfg.USE_HTTPS now userId).value,
          { res with cookies := res.cookies ++ [sessionCookie lib secret cfg.USE_HTTPS now userId] }) := by
  simp [generateTokenAndSetCookie, jwtSign, hs, hne, ms_15d, sessionCookie, Res.cookie]

theorem generateTokenAndSetCookie_error (lib : Libs) (cfg : EnvVars) (now : Nat)
    (userId : String) (res : Res) (hs : cfg.JWT_SECRET = none) :
    generateTokenAndSetCookie lib cfg now userId res
      = .error "secretOrPrivateKey must have a value" := by
  simp [generateTokenAndSetCookie, jwtSign, hs]

/-! ## Signup: validation -/

theorem signup_of_failing_check (lib : Libs) (cfg : EnvVars) (draws : Draws)
    (others : Interference) (body : AuthBody) (dir : Directory) (msg : String)
    (h : firstFailingCheck body = some msg) :
    signup lib cfg draws others body dir
      = { res := { statusCode := 400, cookies := [], body := some (.message false msg) }
          dir := dir, log := [] } := by
  obtain ⟨e, p, u⟩ := body
  rcases e with _ | e <;> rcases p with _ | p <;> rcases u with _ | u <;>
    simp [firstFailingCheck] at h <;>
    try (subst h; simp [signup, truthy, Res.status, Res.json])
  by_cases he : e = "" <;> by_cases hp : p = "" <;> by_cases hu : u = "" <;>
    simp [he, hp, hu] at h <;>
    try (subst h; simp [signup, truthy, Res.status, Res.json, he, hp, hu])
  by_cases hm : emailRegex.test e = false
  · simp [hm] at h
    subst h
    simp [signup, truthy, Res.status, Res.json, he, hp, hu, hm]
  · by_cases hl : jsLength p < 6
    · simp [hm, hl] at h
      subst h
      simp at hm
      simp [signup, truthy, Res.status, Res.json, he, hp, hu, hm, hl]
    · simp [hm, hl] at h

theorem firstFailingCheck_eq_none_iff (body : AuthBody) :
    firstFailingCheck body = none ↔
      ∃ email password username, body = ⟨some email, some password, some username⟩ ∧
        PassesValidation email password username := by
  obtain ⟨e, p, u⟩ := body
  rcases e with _ | e <;> rcases p with _ | p <;> rcases u with _ | u <;>
    simp [firstFailingCheck, PassesValidation]
  by_cases he : e = "" <;> by_cases hp : p = "" <;> by_cases hu : u = "" <;>
    simp [he, hp, hu]
  by_cases hm : emailRegex.test e = false
  · simp [hm]
  · by_cases hl : jsLength p < 6
    · simp [hm, hl]
    · simp at hm
      simp [hm]
      exact ⟨fun h => ⟨e, p, u, ⟨rfl, rfl, rfl⟩, he, hp, hu, hm, h⟩, fun _ => by omega⟩

theorem signup_of_valid (lib : Libs) (cfg : EnvVars) (draws : Draws) (others : Interference)
    (dir : Directory) (email password username : String)
    (hv : PassesValidation email password username) :
    signup lib cfg draws others ⟨some email, some password, some username⟩ dir
      = match (others 0 dir).findOneByEmail email with
        | some _ =>
          ⟨{ statusCode := 400, cookies := [], body := some (.message false "Email already exists") },
            others 0 dir, [.findOneEmail email]⟩
        | none =>
          match (others 1 (others 0 dir)).findOneByUsername username with
          | some _ =>
            ⟨{ statusCode := 400, cookies := [],
               body := some (.message false "Username already exists") },
              others 1 (others 0 dir), [.findOneEmail email, .findOneUsername username]⟩
          | none =>
            match generateTokenAndSetCookie lib cfg draws.now draws.newId {} with
            | .error _ =>
              ⟨{ statusCode := 500, cookies := [],
                 body := some (.message false "Internal server error") },
                others 1 (others 0 dir),
                [.findOneEmail email, .findOneUsername username, .genSalt 10,
                  .hash password draws.salt, .sign draws.newId]⟩
            | .ok (_, res1) =>
              match (others 2 (others 1 (others 0 dir))).save
                  (newUserDoc lib draws email password username) with
              | .error _ =>
                ⟨{ statusCode := 500, cookies := res1.cookies,
                   body := some (.message false "Internal server error") },
                  others 2 (others 1 (others 0 dir)),
                  [.findOneEmail email, .findOneUsername username, .genSalt 10,
                    .hash password draws.salt, .sign draws.newId,
                    .save (newUserDoc lib draws email password username)]⟩
              | .ok dir4 =>
                ⟨{ statusCode := 201, cookies := res1.cookies,
                   body := some (.user true
                     (sanitized (newUserDoc lib draws email password username))) },
                  dir4,
                  [.findOneEmail email, .findOneUsername username, .genSalt 10,
                    .hash password draws.salt, .sign draws.newId,
                    .save (newUserDoc lib draws email password username)]⟩ := by
  obtain ⟨h1, h2, h3, h4, h5⟩ := hv
  have hlen : ¬ jsLength password < 6 := by omega
  simp only [signup, truthy, h1, h2, h3, h4, hlen, Option.getD]
  simp only [Res.status, Res.json, internalServerError, newUserDoc, sanitized]
  simp [h1, h2, h3]

/-! ## Signup: the accepting run -/

theorem signup_accepts (lib : Libs) (cfg : EnvVars) (draws : Draws) (dir : Directory)
    (email password username secret : String)
    (hv : PassesValidation email password username)
    (hs : cfg.JWT_SECRET = some secret) (hne : secret ≠ "")
    (hE : ∀ d ∈ dir, d.email ≠ email) (hU : ∀ d ∈ dir, d.username ≠ username) :
    signup lib cfg draws quiet ⟨some email, some password, some username⟩ dir
      = { res := { statusCode := 201
                   cookies := [sessionCookie lib secret cfg.USE_HTTPS draws.now draws.newId]
                   body := some (.user true (sanitized (newUserDoc lib draws email password username))) }
          dir := dir ++ [newUserDoc lib draws email password username]
          log := [.findOneEmail email, .findOneUsername username, .genSalt 10,
            .hash password draws.salt, .sign draws.newId,
            .save (newUserDoc lib draws email password username)] } := by
  obtain ⟨h1, h2, h3, h4, h5⟩ := hv
  have hfe := (findOneByEmail_eq_none_iff dir email).2 hE
  have hfu := (findOneByUsername_eq_none_iff dir username).2 hU
  have hsave : Directory.save dir (newUserDoc lib draws email password username)
      = .ok (dir ++ [newUserDoc lib draws email password username]) :=
    save_fresh (by simpa [newUserDoc] using hE) (by simpa [newUserDoc] using hU)
  have hlen : ¬ jsLength password < 6 := by omega
  have hsave2 : Directory.save dir
      { _id := draws.newId, email := email, password := lib.hash password draws.salt,
        username := username, image := PROFILE_PICS draws.pick }
      = .ok (dir ++ [newUserDoc lib draws email password username]) := hsave
  simp [signup, truthy, h1, h2, h3, h4, hlen, quiet, hfe, hfu,
    generateTokenAndSetCookie_ok lib cfg draws.now draws.newId {} hs hne, hsave2,
    Res.status, Res.json, sanitized, newUserDoc]

theorem login_accepts (lib : Libs) (cfg : EnvVars) (now : Nat) (dir : Directory)
    (email password secret : String) (username : Option String) (user : UserDoc)
    (he : email ≠ "") (hp : password ≠ "")
    (hs : cfg.JWT_SECRET = some secret) (hne : secret ≠ "")
    (hfind : dir.findOneByEmail email = some user)
    (hc : lib.compare password user.password = true) :
    login lib cfg now ⟨some email, .string password, username⟩ dir
      = { res := { statusCode := 200
                   cookies := [sessionCookie lib secret cfg.USE_HTTPS now user._id]
                   body := some (.user true (sanitized user)) }
          dir := dir
          log := [.findOneEmail email, .compare (.string password) user.password,
            .sign user._id] } := by
  simp [login, truthy, JsValue.truthy, bcryptCompare, he, hp, hfind, hc,
    generateTokenAndSetCookie_ok lib cfg now user._id {} hs hne,
    Res.status, Res.json, sanitized]

/-! ## Login -/

theorem toyLibs_compare_hash (password salt : String) :
    toyLibs.compare password (toyLibs.hash password salt) = true := by
  simp [toyLibs]

/-- For string passwords login answers an unknown e-mail and a known e-mail with a
password that does not verify in the same way: for any two login requests with
non-empty string e-mail and password, one against a directory that holds no
record with its e-mail and one against a directory that holds its e-mail but
no digest the password verifies against, the responses are equal, with status
404, body `success: false, message: "Invalid credentials"` and no cookie set. -/
theorem login_string_password_uniform
    (lib : Libs) (cfg cfg' : EnvVars) (now now' : Nat)
    (dir dir' : Directory) (email password email' password' : String)
    (username username' : Option String)
    (hemail : email ≠ "") (hpassword : password ≠ "")
    (hemail' : email' ≠ "") (hpassword' : password' ≠ "")
    (hunknown : ∀ d ∈ dir, d.email ≠ email)
    (hknown : ∃ d ∈ dir', d.email = email')
    (hwrong : ∀ d ∈ dir', d.email = email' → lib.compare password' d.password = false) :
    (login lib cfg now ⟨some email, .string password, username⟩ dir).res
        = (login lib cfg' now' ⟨some email', .string password', username'⟩ dir').res
      ∧ (login lib cfg now ⟨some email, .string password, username⟩ dir).res
        = { statusCode := 404, cookies := [],
            body := some (.message false "Invalid credentials") } := by
  have h1 : (login lib cfg now ⟨some email, .string password, username⟩ dir).res
      = { statusCode := 404, cookies := [],
          body := some (.message false "Invalid credentials") } := by
    have hf := (findOneByEmail_eq_none_iff dir email).2 hunknown
    simp [login, truthy, JsValue.truthy, hemail, hpassword, hf, Res.status, Res.json]
  have h2 : (login lib cfg' now' ⟨some email', .string password', username'⟩ dir').res
      = { statusCode := 404, cookies := [],
          body := some (.message false "Invalid credentials") } := by
    obtain ⟨d, hd⟩ := findOneByEmail_of_mem hknown
    have hm := findOneByEmail_some_mem hd
    have hc := hwrong d hm.1 hm.2
    simp [login, truthy, JsValue.truthy, bcryptCompare, hemail', hpassword', hd, hc,
      Res.status, Res.json]
  exact ⟨h1.trans h2.symm, h1⟩

/-- A password that is truthy but not a string, against a registered e-mail:
`bcryptjs.compare` rejects and the `catch` block answers 500. -/
theorem login_non_string_password_known (lib : Libs) (cfg : EnvVars) (now : Nat)
    (dir : Directory) (email : String) (password : JsValue) (username : Option String)
    (hemail : email ≠ "") (htruthy : password.truthy = true)
    (hnot : ∀ p, password ≠ .string p) (hknown : ∃ d ∈ dir, d.email = email) :
    (login lib cfg now ⟨some email, password, username⟩ dir).res
      = { statusCode := 500, cookies := [],
          body := some (.message false "Internal server error") } := by
  obtain ⟨d, hd⟩ := findOneByEmail_of_mem hknown
  cases password with
  | string p => exact absurd rfl (hnot p)
  | undefined => simp [JsValue.truthy] at htruthy
  | null => simp [JsValue.truthy] at htruthy
  | bool b =>
    simp [login, truthy, hemail, htruthy, hd, bcryptCompare, internalServerError,
      Res.status, Res.json]
  | number n =>
    simp [login, truthy, hemail, htruthy, hd, bcryptCompare, internalServerError,
      Res.status, Res.json]
  | object =>
    simp [login, truthy, hemail, htruthy, hd, bcryptCompare, internalServerError,
      Res.status, Res.json]

/-- A truthy password of any kind against an e-mail that is not registered: 404. -/
theorem login_unknown_email (lib : Libs) (cfg : EnvVars) (now : Nat)
    (dir : Directory) (email : String) (password : JsValue) (username : Option String)
    (hemail : email ≠ "") (htruthy : password.truthy = true)
    (hunknown : ∀ d ∈ dir, d.email ≠ email) :
    (login lib cfg now ⟨some email, password, username⟩ dir).res
      = { statusCode := 404, cookies := [],
          body := some (.message false "Invalid credentials") } := by
  have hf := (findOneByEmail_eq_none_iff dir email).2 hunknown
  simp [login, truthy, hemail, htruthy, hf, Res.status, Res.json]

/-- C1 fails on the code for a password that is not a string: `login` tests only
that the password is truthy, so for the JSON number 12345678 and the e-mail
`a@b.com` it answers 404 "Invalid credentials" while the e-mail is not
registered and 500 "Internal server error" once it is (`bcryptjs.compare`
rejects a non-string and the `catch` block answers); the two responses differ,
so the caller learns whether the e-mail is registered. -/
theorem login_numeric_password_tells_registered_email :
    (login toyLibs (ENV_VARS testEnv) 7000 numericLogin []).res
      = { statusCode := 404, cookies := [],
          body := some (.message false "Invalid credentials") } ∧
    (login toyLibs (ENV_VARS testEnv) 7000 numericLogin [testerDoc]).res
      = { statusCode := 500, cookies := [],
          body := some (.message false "Internal server error") } ∧
    (login toyLibs (ENV_VARS testEnv) 7000 numericLogin []).res
      ≠ (login toyLibs (ENV_VARS testEnv) 7000 numericLogin [testerDoc]).res := by
  refine ⟨by decide, by decide, by decide⟩

/-! ## Signup: duplicates -/

theorem signup_of_duplicate (lib : Libs) (cfg : EnvVars) (draws : Draws) (dir : Directory)
    (email password username : String)
    (hv : PassesValidation email password username)
    (hdup : (∃ d ∈ dir, d.email = email) ∨ (∃ d ∈ dir, d.username = username)) :
    RejectedAsDuplicate
      (signup lib cfg draws quiet ⟨some email, some password, some username⟩ dir) dir := by
  rw [signup_of_valid lib cfg draws quiet dir email password username hv]
  simp only [quiet]
  cases hfe : dir.findOneByEmail email with
  | some d => exact ⟨⟨_, Or.inl rfl, rfl⟩, rfl⟩
  | none =>
    have hne := (findOneByEmail_eq_none_iff dir email).1 hfe
    rcases hdup with ⟨d, hd, he⟩ | hu
    · exact absurd he (hne d hd)
    · obtain ⟨d, hd⟩ := findOneByUsername_of_mem hu
      simp only [hd]
      exact ⟨⟨_, Or.inr rfl, rfl⟩, rfl⟩

theorem signup_created_inv (lib : Libs) (cfg : EnvVars) (draws : Draws) (others : Interference)
    (body : AuthBody) (dir : Directory)
    (h : (signup lib cfg draws others body dir).res.statusCode = 201) :
    ∃ email password username,
      body = ⟨some email, some password, some username⟩ ∧
      PassesValidation email password username ∧
      (signup lib cfg draws others body dir).dir
        = others 2 (others 1 (others 0 dir)) ++ [newUserDoc lib draws email password username] ∧
      (signup lib cfg draws others body dir).res.body
        = some (.user true (sanitized (newUserDoc lib draws email password username))) := by
  cases hc : firstFailingCheck body with
  | some msg =>
    rw [signup_of_failing_check lib cfg draws others body dir msg hc] at h
    simp at h
  | none =>
    obtain ⟨e, p, u, rfl, hv⟩ := (firstFailingCheck_eq_none_iff body).1 hc
    refine ⟨e, p, u, rfl, hv, ?_⟩
    rw [signup_of_valid lib cfg draws others dir e p u hv] at h ⊢
    cases hfe : (others 0 dir).findOneByEmail e with
    | some d => simp [hfe] at h
    | none =>
      cases hfu : (others 1 (others 0 dir)).findOneByUsername u with
      | some d => simp [hfe, hfu] at h
      | none =>
        cases hg : generateTokenAndSetCookie lib cfg draws.now draws.newId {} with
        | error err => simp [hfe, hfu, hg] at h
        | ok tr =>
          cases hs : (others 2 (others 1 (others 0 dir))).save (newUserDoc lib draws e p u) with
          | error err => simp [hfe, hfu, hg, hs] at h
          | ok dir4 =>
            have hd4 : dir4 = others 2 (others 1 (others 0 dir)) ++ [newUserDoc lib draws e p u] := by
              unfold Directory.save at hs
              split at hs
              · simp at hs
              · split at hs
                · simp at hs
                · simpa using hs.symm
            simp [hd4]

/-- C3. A signup that passes validation against a directory that already holds a
record with its e-mail or a record with its username answers 400 with
"Email already exists" (when the e-mail is held) or "Username already exists"
(when only the username is), sets no cookie and leaves the directory as it
was; in particular a signup that repeats the e-mail or the username of an
earlier successful signup is turned down in this way. -/
theorem signup_duplicate_rejected (lib : Libs) (cfg : EnvVars) (draws : Draws)
    (dir : Directory) (email password username : String)
    (hv : PassesValidation email password username) :
    (((∃ d ∈ dir, d.email = email) ∨ (∃ d ∈ dir, d.username = username)) →
      RejectedAsDuplicate
        (signup lib cfg draws quiet ⟨some email, some password, some username⟩ dir) dir) ∧
    ((∃ d ∈ dir, d.email = email) →
      (signup lib cfg draws quiet ⟨some email, some password, some username⟩ dir).res.body
        = some (.message false "Email already exists")) ∧
    ((∀ d ∈ dir, d.email ≠ email) → (∃ d ∈ dir, d.username = username) →
      (signup lib cfg draws quiet ⟨some email, some password, some username⟩ dir).res.body
        = some (.message false "Username already exists")) ∧
    (∀ (lib0 : Libs) (cfg0 : EnvVars) (draws0 : Draws) (body0 : AuthBody) (dir0 : Directory),
      (signup lib0 cfg0 draws0 quiet body0 dir0).res.statusCode = 201 →
      dir = (signup lib0 cfg0 draws0 quiet body0 dir0).dir →
      (body0.email = some email ∨ body0.username = some username) →
      RejectedAsDuplicate
        (signup lib cfg draws quiet ⟨some email, some password, some username⟩ dir) dir) := by
  refine ⟨signup_of_duplicate lib cfg draws dir email password username hv, ?_, ?_, ?_⟩
  · intro hE
    obtain ⟨d, hd⟩ := findOneByEmail_of_mem hE
    rw [signup_of_valid lib cfg draws quiet dir email password username hv]
    simp [quiet, hd]
  · intro hE hU
    obtain ⟨d, hd⟩ := findOneByUsername_of_mem hU
    have hfe := (findOneByEmail_eq_none_iff dir email).2 hE
    rw [signup_of_valid lib cfg draws quiet dir email password username hv]
    simp [quiet, hd, hfe]
  · intro lib0 cfg0 draws0 body0 dir0 h201 hdir hsame
    obtain ⟨e0, p0, u0, hb, _, hd, _⟩ := signup_created_inv lib0 cfg0 draws0 quiet body0 dir0 h201
    apply signup_of_duplicate lib cfg draws dir email password username hv
    have hmem : newUserDoc lib0 draws0 e0 p0 u0 ∈ dir := by
      rw [hdir, hd]; simp
    subst hb
    rcases hsame with h | h
    · left
      refine ⟨_, hmem, ?_⟩
      simp at h
      simp [newUserDoc, h]
    · right
      refine ⟨_, hmem, ?_⟩
      simp at h
      simp [newUserDoc, h]

/-- Witness of C3: the tester signs up into an empty directory and the same
request is sent again. -/
theorem signup_duplicate_rejected_witness :
    (signup toyLibs (ENV_VARS testEnv) testerDraws quiet testerBody []).res.statusCode = 201 ∧
    (signup toyLibs (ENV_VARS testEnv) testerDraws quiet testerBody []).dir = [testerDoc] ∧
    RejectedAsDuplicate
      (signup toyLibs (ENV_VARS testEnv) testerDraws quiet testerBody [testerDoc]) [testerDoc] :=
  ⟨by decide, by decide,
    (signup_duplicate_rejected toyLibs (ENV_VARS testEnv) testerDraws [testerDoc]
      "a@b.com" "password" "tester" (by unfold PassesValidation; decide)).2.2.2
      toyLibs (ENV_VARS testEnv) testerDraws testerBody [] (by decide) (by decide)
      (Or.inl rfl)⟩

/-- C4. A signup whose body misses one of e-mail, password and username (absent or
empty), or whose e-mail does not match the pattern, or whose password is
shorter than six characters, answers 400 with `success: false` and the message
of the first failing check in the order presence, e-mail format, password
length; it sets no cookie, leaves the directory as it was and makes no call
to the directory, the hasher or the token signer. -/
theorem signup_validation_failure (lib : Libs) (cfg : EnvVars) (draws : Draws)
    (others : Interference) (body : AuthBody) (dir : Directory)
    (h : Missing body.email ∨ Missing body.password ∨ Missing body.username ∨
      (∃ e, body.email = some e ∧ emailRegex.test e = false) ∨
      (∃ p, body.password = some p ∧ jsLength p < 6)) :
    ∃ msg, firstFailingCheck body = some msg ∧
      signup lib cfg draws others body dir
        = { res := { statusCode := 400, cookies := [], body := some (.message false msg) }
            dir := dir, log := [] } := by
  cases hc : firstFailingCheck body with
  | some msg => exact ⟨msg, rfl, signup_of_failing_check lib cfg draws others body dir msg hc⟩
  | none =>
    exfalso
    obtain ⟨e, p, u, rfl, h1, h2, h3, h4, h5⟩ := (firstFailingCheck_eq_none_iff body).1 hc
    rcases h with h | h | h | ⟨e', he', hm⟩ | ⟨p', hp', hl⟩
    · rcases h with h | h <;> simp at h
      exact h1 h
    · rcases h with h | h <;> simp at h
      exact h2 h
    · rcases h with h | h <;> simp at h
      exact h3 h
    · simp at he'
      subst he'
      simp [h4] at hm
    · simp at hp'
      subst hp'
      omega

/-- Witness of C4: a body whose password has five characters. -/
theorem signup_validation_failure_witness :
    ∃ msg, firstFailingCheck ⟨some "a@b.com", some "passw", some "tester"⟩ = some msg ∧
      signup toyLibs (ENV_VARS testEnv) testerDraws quiet
          ⟨some "a@b.com", some "passw", some "tester"⟩ [testerDoc]
        = { res := { statusCode := 400, cookies := [], body := some (.message false msg) }
            dir := [testerDoc], log := [] } :=
  signup_validation_failure toyLibs (ENV_VARS testEnv) testerDraws quiet
    ⟨some "a@b.com", some "passw", some "tester"⟩ [testerDoc]
    (Or.inr (Or.inr (Or.inr (Or.inr ⟨"passw", rfl, by decide⟩))))

/-! ## Signup followed by login -/

/-- C2, as stated, fails when the configuration resolves to no signing secret:
with `NODE_ENV=development` and no `JWT_SECRET`, the tester's request passes
validation, its e-mail and username are new to the empty directory and the
hasher verifies its own digests, yet `jwt.sign` throws and `signup` answers
500, with no cookie and no record stored. -/
theorem signup_without_secret_is_500 :
    PassesValidation "a@b.com" "password" "tester" ∧
    (∀ p salt, toyLibs.compare p (toyLibs.hash p salt) = true) ∧
    signup toyLibs (ENV_VARS devEnv) testerDraws quiet testerBody []
      = { res := { statusCode := 500, cookies := [],
                   body := some (.message false "Internal server error") }
          dir := []
          log := [.findOneEmail "a@b.com", .findOneUsername "tester", .genSalt 10,
            .hash "password" "salt", .sign "id1"] } :=
  ⟨by unfold PassesValidation; decide, toyLibs_compare_hash, by decide⟩

/-- C2 (amended). Under a configuration that resolves to a signing secret, with a
hasher that verifies its own digests: a signup that passes validation and whose
e-mail and username are new to the directory answers 201 with the sanitized
new record, whose e-mail is the given one, and sets the session cookie; a
login with the same e-mail and password on the directory it leaves answers
200 with `success: true`, the same user and a session cookie issued at the
time of the login. -/
theorem signup_then_login_succeeds (lib : Libs) (env : ProcessEnv) (draws : Draws)
    (now : Nat) (dir : Directory) (email password username : String)
    (loginUsername : Option String)
    (hverify : ∀ p salt, lib.compare p (lib.hash p salt) = true)
    (hsecret : HasSecret env)
    (hv : PassesValidation email password username)
    (hE : ∀ d ∈ dir, d.email ≠ email) (hU : ∀ d ∈ dir, d.username ≠ username) :
    ∃ secret user,
      (ENV_VARS env).JWT_SECRET = some secret ∧
      (signup lib (ENV_VARS env) draws quiet ⟨some email, some password, some username⟩ dir).res
        = { statusCode := 201
            cookies := [sessionCookie lib secret (ENV_VARS env).USE_HTTPS draws.now draws.newId]
            body := some (.user true user) } ∧
      user.email = email ∧
      (login lib (ENV_VARS env) now ⟨some email, .string password, loginUsername⟩
          (signup lib (ENV_VARS env) draws quiet
            ⟨some email, some password, some username⟩ dir).dir).res
        = { statusCode := 200
            cookies := [sessionCookie lib secret (ENV_VARS env).USE_HTTPS now draws.newId]
            body := some (.user true user) } := by
  obtain ⟨secret, hs, hne⟩ := ENV_VARS_secret_of_hasSecret hsecret
  refine ⟨secret, sanitized (newUserDoc lib draws email password username), hs, ?_, rfl, ?_⟩
  · rw [signup_accepts lib (ENV_VARS env) draws dir email password username secret hv hs hne hE hU]
  · rw [signup_accepts lib (ENV_VARS env) draws dir email password username secret hv hs hne hE hU]
    have hfind : Directory.findOneByEmail (dir ++ [newUserDoc lib draws email password username])
        email = some (newUserDoc lib draws email password username) :=
      @findOneByEmail_append_fresh dir (newUserDoc lib draws email password username)
        (by simpa [newUserDoc] using hE)
    rw [login_accepts lib (ENV_VARS env) now _ email password secret loginUsername
      (newUserDoc lib draws email password username) hv.1 hv.2.1 hs hne hfind
      (by simpa [newUserDoc] using hverify password draws.salt)]
    simp [newUserDoc]

/-- Witness of C2 (amended): the scenario of the integration test. -/
theorem signup_then_login_succeeds_witness :
    ∃ secret user,
      (ENV_VARS testEnv).JWT_SECRET = some secret ∧
      (signup toyLibs (ENV_VARS testEnv) testerDraws quiet
          ⟨some "a@b.com", some "password", some "tester"⟩ []).res
        = { statusCode := 201
            cookies := [sessionCookie toyLibs secret (ENV_VARS testEnv).USE_HTTPS
              testerDraws.now testerDraws.newId]
            body := some (.user true user) } ∧
      user.email = "a@b.com" ∧
      (login toyLibs (ENV_VARS testEnv) 7000 ⟨some "a@b.com", .string "password", none⟩
          (signup toyLibs (ENV_VARS testEnv) testerDraws quiet
            ⟨some "a@b.com", some "password", some "tester"⟩ []).dir).res
        = { statusCode := 200
            cookies := [sessionCookie toyLibs secret (ENV_VARS testEnv).USE_HTTPS 7000
              testerDraws.newId]
            body := some (.user true user) } :=
  signup_then_login_succeeds toyLibs testEnv testerDraws 7000 [] "a@b.com" "password" "tester"
    none toyLibs_compare_hash (Or.inr rfl) (by unfold PassesValidation; decide)
    (by simp) (by simp)

/-! ## The sanitized view -/

theorem generateTokenAndSetCookie_congr (lib lib' : Libs) (cfg : EnvVars) (now : Nat)
    (userId : String) (res : Res) (h : lib.encode = lib'.encode) :
    generateTokenAndSetCookie lib cfg now userId res
      = generateTokenAndSetCookie lib' cfg now userId res := by
  simp [generateTokenAndSetCookie, jwtSign, h]

theorem save_congr (dir : Directory) (doc doc' : UserDoc)
    (he : doc.email = doc'.email) (hu : doc.username = doc'.username) :
    (∃ err, dir.save doc = .error err ∧ dir.save doc' = .error err) ∨
      (dir.save doc = .ok (dir ++ [doc]) ∧ dir.save doc' = .ok (dir ++ [doc'])) := by
  unfold Directory.save
  rw [he, hu]
  split
  · exact Or.inl ⟨_, rfl, rfl⟩
  · split
    · exact Or.inl ⟨_, rfl, rfl⟩
    · exact Or.inr ⟨rfl, rfl⟩

theorem firstFailingCheck_congr (email username password password' : Option String)
    (ht : truthy password = truthy password')
    (hl : jsLength (password.getD "") < 6 ↔ jsLength (password'.getD "") < 6) :
    firstFailingCheck ⟨email, password, username⟩
      = firstFailingCheck ⟨email, password', username⟩ := by
  rcases email with _ | e <;> rcases password with _ | p <;> rcases password' with _ | p' <;>
    rcases username with _ | u <;> simp [firstFailingCheck, truthy] at ht hl ⊢
  · simp [ht]
  · simp [ht]
  · simp [ht, hl]

theorem findOneByEmail_sameUpToDigest (lib lib' : Libs) (password password' email : String)
    {dir dir' : Directory}
    (h : List.Forall₂ (SameUpToDigest lib lib' password password') dir dir') :
    (dir.findOneByEmail email = none ∧ dir'.findOneByEmail email = none) ∨
      ∃ d d', dir.findOneByEmail email = some d ∧ dir'.findOneByEmail email = some d' ∧
        SameUpToDigest lib lib' password password' d d' := by
  induction h with
  | nil => exact Or.inl ⟨rfl, rfl⟩
  | @cons a b l l' hab _ ih =>
    have hemail : a.email = b.email := by
      have := congrArg UserDoc.email hab.1
      simpa [sanitized] using this
    by_cases hm : a.email = email
    · right
      refine ⟨a, b, ?_, ?_, hab⟩
      · simp [Directory.findOneByEmail, hm]
      · simp [Directory.findOneByEmail, ← hemail, hm]
    · have hm' : ¬ b.email = email := by rwa [← hemail]
      simpa [Directory.findOneByEmail, hm, hm'] using ih

theorem signup_res_congr (lib lib' : Libs) (cfg : EnvVars) (draws : Draws)
    (others : Interference) (email username password password' : Option String)
    (dir : Directory) (henc : lib.encode = lib'.encode)
    (ht : truthy password = truthy password')
    (hl : jsLength (password.getD "") < 6 ↔ jsLength (password'.getD "") < 6) :
    (signup lib cfg draws others ⟨email, password, username⟩ dir).res
      = (signup lib' cfg draws others ⟨email, password', username⟩ dir).res := by
  have hff := firstFailingCheck_congr email username password password' ht hl
  cases hc : firstFailingCheck ⟨email, password, username⟩ with
  | some msg =>
    rw [signup_of_failing_check lib cfg draws others _ dir msg hc,
      signup_of_failing_check lib' cfg draws others _ dir msg (hff ▸ hc)]
  | none =>
    obtain ⟨e, p, u, hb, hv⟩ := (firstFailingCheck_eq_none_iff _).1 hc
    obtain ⟨e', p', u', hb', hv'⟩ := (firstFailingCheck_eq_none_iff _).1 (hff ▸ hc)
    simp only [AuthBody.mk.injEq] at hb hb'
    obtain ⟨rfl, rfl, rfl⟩ := hb
    obtain ⟨he, rfl, hu⟩ := hb'
    simp only [Option.some.injEq] at he hu
    subst he hu
    rw [signup_of_valid lib cfg draws others dir e p u hv,
      signup_of_valid lib' cfg draws others dir e p' u hv',
      generateTokenAndSetCookie_congr lib lib' cfg draws.now draws.newId {} henc]
    cases (others 0 dir).findOneByEmail e with
    | some d => rfl
    | none =>
      cases (others 1 (others 0 dir)).findOneByUsername u with
      | some d => rfl
      | none =>
        cases generateTokenAndSetCookie lib' cfg draws.now draws.newId {} with
        | error err => rfl
        | ok tr =>
          rcases save_congr (others 2 (others 1 (others 0 dir)))
            (newUserDoc lib draws e p u) (newUserDoc lib' draws e p' u) rfl rfl with
            ⟨err, h1, h2⟩ | ⟨h1, h2⟩
          · simp only [h1, h2]
          · simp only [h1, h2]
            simp [sanitized, newUserDoc]

theorem login_res_congr (lib lib' : Libs) (cfg : EnvVars) (now : Nat)
    (email username username' password password' : Option String) (dir dir' : Directory)
    (henc : lib.encode = lib'.encode) (ht : truthy password = truthy password')
    (hrel : List.Forall₂
      (SameUpToDigest lib lib' (password.getD "") (password'.getD "")) dir dir') :
    (login lib cfg now ⟨email, .ofOption password, username⟩ dir).res
      = (login lib' cfg now ⟨email, .ofOption password', username'⟩ dir').res := by
  rcases password with _ | p <;> rcases password' with _ | p' <;>
    simp only [truthy, decide_eq_decide, Bool.false_eq, Bool.true_eq, decide_eq_true_eq,
      decide_eq_false_iff_not, ne_eq, not_not, Bool.eq_false_iff] at ht
  · simp [login, JsValue.ofOption, JsValue.truthy]
  · subst ht
    simp [login, JsValue.ofOption, JsValue.truthy]
  · subst ht
    simp [login, JsValue.ofOption, JsValue.truthy]
  · have htr : (JsValue.string p).truthy = (JsValue.string p').truthy := by
      simp only [JsValue.truthy, decide_eq_decide]
      exact ht
    unfold login
    simp only [JsValue.ofOption, ← htr, bcryptCompare,
      generateTokenAndSetCookie_congr lib lib' cfg now _ {} henc]
    split
    · rfl
    · rcases findOneByEmail_sameUpToDigest lib lib' p p' (email.getD "") hrel with
        ⟨h1, h2⟩ | ⟨d, d', h1, h2, hs, hcmp⟩
      · simp only [h1, h2]
      · simp only [sanitized, UserDoc.mk.injEq, and_true, true_and] at hs
        obtain ⟨hid, hem, hun, him⟩ := hs
        simp only [h1, h2, hcmp, hid, hem, hun, him]
        split
        · rfl
        · cases generateTokenAndSetCookie lib' cfg now d'._id {} with
          | error err => rfl
          | ok tr => rfl

theorem login_ok_inv (lib : Libs) (cfg : EnvVars) (now : Nat) (body : LoginBody)
    (dir : Directory) (h : (login lib cfg now body dir).res.statusCode = 200) :
    ∃ doc, doc ∈ dir ∧ some doc.email = body.email ∧
      (login lib cfg now body dir).res.body = some (.user true (sanitized doc)) := by
  obtain ⟨e, p, u⟩ := body
  unfold login at h ⊢
  simp only [] at h ⊢
  split at h
  · simp [Res.status, Res.json] at h
  · rename_i hpres
    simp only [hpres]
    cases hf : Directory.findOneByEmail dir (e.getD "") with
    | none => simp [hf, Res.status, Res.json] at h
    | some d =>
      simp only [hf] at h ⊢
      cases hb : bcryptCompare lib p d.password with
      | error err => simp [hb, internalServerError, Res.status, Res.json] at h
      | ok verdict =>
        simp only [hb] at h ⊢
        split at h
        · simp [Res.status, Res.json] at h
        · rename_i hcmp
          simp only [hcmp]
          cases hg : generateTokenAndSetCookie lib cfg now d._id {} with
          | error err => simp [hg, internalServerError, Res.status, Res.json] at h
          | ok tr =>
            have hm := findOneByEmail_some_mem hf
            refine ⟨d, hm.1, ?_, ?_⟩
            · rcases e with _ | e
              · simp [truthy] at hpres
              · simp at hm ⊢
                exact hm.2
            · simp [Res.status, Res.json, sanitized]

/-- C5. In the response of a successful signup (201) and of a successful login
(200) the user object is the stored record with the password replaced by the
empty string and every other field unchanged.  No response of signup or login,
successful or not, carries the plaintext password or the digest: the
response of signup stays the same when the password is replaced by another
one that is present and of admissible length alike and the hasher by any
other, and the response of login stays the same when the password, the
hasher and the stored digests are replaced by others under which the
password check gives the same verdicts. -/
theorem responses_carry_sanitized_user (lib lib' : Libs) (cfg : EnvVars) (draws : Draws)
    (others : Interference) (now : Nat) (email username password password' : Option String)
    (dir dir' : Directory) :
    ((signup lib cfg draws others ⟨email, password, username⟩ dir).res.statusCode = 201 →
      ∃ doc stored,
        (signup lib cfg draws others ⟨email, password, username⟩ dir).dir = stored ++ [doc] ∧
        (signup lib cfg draws others ⟨email, password, username⟩ dir).res.body
          = some (.user true (sanitized doc))) ∧
    ((login lib cfg now ⟨email, .ofOption password, username⟩ dir).res.statusCode = 200 →
      ∃ doc, doc ∈ dir ∧ some doc.email = email ∧
        (login lib cfg now ⟨email, .ofOption password, username⟩ dir).res.body
          = some (.user true (sanitized doc))) ∧
    (lib.encode = lib'.encode → truthy password = truthy password' →
      (jsLength (password.getD "") < 6 ↔ jsLength (password'.getD "") < 6) →
      (signup lib cfg draws others ⟨email, password, username⟩ dir).res
        = (signup lib' cfg draws others ⟨email, password', username⟩ dir).res) ∧
    (lib.encode = lib'.encode → truthy password = truthy password' →
      List.Forall₂ (SameUpToDigest lib lib' (password.getD "") (password'.getD "")) dir dir' →
      (login lib cfg now ⟨email, .ofOption password, username⟩ dir).res
        = (login lib' cfg now ⟨email, .ofOption password', username⟩ dir').res) := by
  refine ⟨?_, ?_, ?_, ?_⟩
  · intro h
    obtain ⟨e, p, u, _, _, hd, hb⟩ := signup_created_inv lib cfg draws others _ dir h
    exact ⟨_, _, hd, hb⟩
  · intro h
    exact login_ok_inv lib cfg now _ dir h
  · intro henc ht hl
    exact signup_res_congr lib lib' cfg draws others email username password password' dir
      henc ht hl
  · intro henc ht hrel
    exact login_res_congr lib lib' cfg now email username username password password' dir dir'
      henc ht hrel

/-- Witness of C5: the tester's signup and login, and the same two requests with
another password under the second toy hasher. -/
theorem responses_carry_sanitized_user_witness :
    (∃ doc stored,
        (signup toyLibs (ENV_VARS testEnv) testerDraws quiet testerBody []).dir = stored ++ [doc] ∧
        (signup toyLibs (ENV_VARS testEnv) testerDraws quiet testerBody []).res.body
          = some (.user true (sanitized doc))) ∧
    (∃ doc, doc ∈ [testerDoc] ∧ some doc.email = some "a@b.com" ∧
        (login toyLibs (ENV_VARS testEnv) 7000 testerLogin [testerDoc]).res.body
          = some (.user true (sanitized doc))) ∧
    (signup toyLibs (ENV_VARS testEnv) testerDraws quiet testerBody []).res
      = (signup plainLibs (ENV_VARS testEnv) testerDraws quiet
          ⟨some "a@b.com", some "hunter22", some "tester"⟩ []).res ∧
    (login toyLibs (ENV_VARS testEnv) 7000 testerLogin [testerDoc]).res
      = (login plainLibs (ENV_VARS testEnv) 7000
          ⟨some "a@b.com", .string "hunter22", some "tester"⟩
          [{ testerDoc with password := "hunter22" }]).res :=
  have h := responses_carry_sanitized_user toyLibs plainLibs (ENV_VARS testEnv) testerDraws
    quiet 7000 (some "a@b.com") (some "tester") (some "password") (some "hunter22")
    [testerDoc] [{ testerDoc with password := "hunter22" }]
  have h0 := responses_carry_sanitized_user toyLibs plainLibs (ENV_VARS testEnv) testerDraws
    quiet 7000 (some "a@b.com") (some "tester") (some "password") (some "hunter22") [] []
  ⟨h0.1 (by decide), h.2.1 (by decide), h0.2.2.1 rfl (by decide) (by decide),
    h.2.2.2 rfl (by decide)
      (List.Forall₂.cons ⟨by decide, by decide⟩ List.Forall₂.nil)⟩

/-! ## The session cookie -/

/-- C6, as stated, fails for a configuration that resolves to no signing secret:
with `NODE_ENV=production` and no `JWT_SECRET`, `jwt.sign` throws and
`generateTokenAndSetCookie` sets no cookie and returns no token. -/
theorem generateTokenAndSetCookie_without_secret_throws :
    generateTokenAndSetCookie toyLibs (ENV_VARS { NODE_ENV := some "production" }) 5000 "id1" {}
      = .error "secretOrPrivateKey must have a value" := by
  rfl

/-- C6 (amended). For every user id and every process environment that resolves to
a signing secret, `generateTokenAndSetCookie` returns a token and adds exactly
one cookie to the response: its value is the returned token, its `maxAge` is
15 * 24 * 60 * 60 * 1000 = 1,296,000,000 milliseconds, which is the time from
the token's `iat` to its `exp` (in seconds) times 1000, `httpOnly` is true,
`sameSite` is `strict`, and `secure` is true exactly when the variable
`USE_HTTPS` is the string `true`. -/
theorem generateTokenAndSetCookie_cookie (lib : Libs) (env : ProcessEnv) (now : Nat)
    (userId : String) (res : Res) (hsecret : HasSecret env) :
    ∃ secret claims token cookie,
      (ENV_VARS env).JWT_SECRET = some secret ∧
      jwtSign lib userId (some secret) "15d" now = .ok (claims, token) ∧
      generateTokenAndSetCookie lib (ENV_VARS env) now userId res
        = .ok (token, { res with cookies := res.cookies ++ [cookie] }) ∧
      cookie.value = token ∧
      cookie.options.maxAge = some (15 * 24 * 60 * 60 * 1000) ∧
      15 * 24 * 60 * 60 * 1000 = 1296000000 ∧
      (claims.exp - claims.iat) * 1000 = 1296000000 ∧
      claims.userId = userId ∧
      cookie.options.httpOnly = true ∧
      cookie.options.sameSite = some "strict" ∧
      (cookie.options.secure = true ↔ env.USE_HTTPS = some "true") := by
  obtain ⟨secret, hs, hne⟩ := ENV_VARS_secret_of_hasSecret hsecret
  refine ⟨secret, { userId := userId, iat := now / 1000, exp := now / 1000 + 1296000 },
    (sessionCookie lib secret (ENV_VARS env).USE_HTTPS now userId).value,
    sessionCookie lib secret (ENV_VARS env).USE_HTTPS now userId, hs, ?_,
    generateTokenAndSetCookie_ok lib (ENV_VARS env) now userId res hs hne, rfl, rfl, rfl, ?_, rfl,
    rfl, rfl, ?_⟩
  · simp [jwtSign, hne, ms_15d, sessionCookie]
  · simp
  · simp [sessionCookie, ENV_VARS]

/-- Witness of C6 (amended): the test configuration. -/
theorem generateTokenAndSetCookie_cookie_witness :
    ∃ secret claims token cookie,
      (ENV_VARS testEnv).JWT_SECRET = some secret ∧
      jwtSign toyLibs "id1" (some secret) "15d" 5000 = .ok (claims, token) ∧
      generateTokenAndSetCookie toyLibs (ENV_VARS testEnv) 5000 "id1" {}
        = .ok (token, { ({} : Res) with cookies := ({} : Res).cookies ++ [cookie] }) ∧
      cookie.value = token ∧
      cookie.options.maxAge = some (15 * 24 * 60 * 60 * 1000) ∧
      15 * 24 * 60 * 60 * 1000 = 1296000000 ∧
      (claims.exp - claims.iat) * 1000 = 1296000000 ∧
      claims.userId = "id1" ∧
      cookie.options.httpOnly = true ∧
      cookie.options.sameSite = some "strict" ∧
      (cookie.options.secure = true ↔ testEnv.USE_HTTPS = some "true") :=
  generateTokenAndSetCookie_cookie toyLibs testEnv 5000 "id1" {} (Or.inr rfl)

/-! ## Logout -/

/-- C7. Whatever cookies the request carries, `logout` answers 200 with
`success: true` and clears one cookie (empty value, expiry in the past), under
the name of every cookie that `generateTokenAndSetCookie` adds when it succeeds;
a second logout gives the same response as the first. -/
theorem logout_clears_session_cookie (reqCookies reqCookies' : List (String × String))
    (lib : Libs) (cfg : EnvVars) (now : Nat) (userId : String) :
    (∃ cleared,
      logout reqCookies
        = { statusCode := 200, cookies := [cleared],
            body := some (.message true "Logged out successfully") } ∧
      cleared.value = "" ∧ cleared.options.expires = some 1 ∧
      ∀ token res1, generateTokenAndSetCookie lib cfg now userId {} = .ok (token, res1) →
        ∃ set, res1.cookies = [set] ∧ set.value = token ∧ cleared.name = set.name ∧
          cleared.options.path = set.options.path) ∧
    logout reqCookies' = logout reqCookies := by
  refine ⟨⟨{ name := "jwt-netflix", value := "", options := { expires := some 1, path := "/" } },
    rfl, rfl, rfl, ?_⟩, rfl⟩
  intro token res1 h
  unfold generateTokenAndSetCookie at h
  split at h
  · simp at h
  · simp only [Except.ok.injEq, Prod.mk.injEq] at h
    obtain ⟨h1, h2⟩ := h
    subst h1 h2
    exact ⟨_, rfl, rfl, rfl, rfl⟩

/-- Witness of C7: a logout that carries the cookie set for the tester under the
test configuration. -/
theorem logout_clears_session_cookie_witness :
    ∃ set cleared token res1,
      generateTokenAndSetCookie toyLibs (ENV_VARS testEnv) 5000 "id1" {} = .ok (token, res1) ∧
      res1.cookies = [set] ∧
      (logout [(set.name, set.value)]).cookies = [cleared] ∧
      cleared.name = set.name ∧
      logout [] = logout [(set.name, set.value)] := by
  obtain ⟨⟨cleared, hl, _, _, hset⟩, hsame⟩ :=
    logout_clears_session_cookie [("jwt-netflix", "testsecretid1")] [] toyLibs
      (ENV_VARS testEnv) 5000 "id1"
  obtain ⟨set, hc, _, hn, _⟩ := hset "testsecretid1"
    { cookies := [sessionCookie toyLibs "testsecret" false 5000 "id1"] } rfl
  have hset' : set = sessionCookie toyLibs "testsecret" false 5000 "id1" := by
    simpa using hc.symm
  refine ⟨set, cleared, "testsecretid1",
    { cookies := [sessionCookie toyLibs "testsecret" false 5000 "id1"] }, rfl, hc, ?_, hn, ?_⟩
  · subst hset'
    simpa [sessionCookie, toyLibs] using congrArg Res.cookies hl
  · subst hset'
    simpa [sessionCookie, toyLibs] using hsame

/-! ## Signup: rejection at write time -/

/-- C9, as stated, fails: when a concurrent signup stores the tester's e-mail after
both pre-checks have passed, the insert is rejected as a duplicate and `signup`
answers 500 (not 400), on a response to which the session cookie of the
unsaved user has already been added. -/
theorem signup_insert_race_is_500_with_cookie :
    PassesValidation "a@b.com" "password" "tester" ∧
    (racingSignup 0 []).findOneByEmail "a@b.com" = none ∧
    (racingSignup 1 (racingSignup 0 [])).findOneByUsername "tester" = none ∧
    (racingSignup 2 (racingSignup 1 (racingSignup 0 []))).save
        (newUserDoc toyLibs testerDraws "a@b.com" "password" "tester")
      = .error "E11000 duplicate key error: email" ∧
    (signup toyLibs (ENV_VARS testEnv) testerDraws racingSignup testerBody []).res
      = { statusCode := 500
          cookies := [sessionCookie toyLibs "testsecret" false 5000 "id1"]
          body := some (.message false "Internal server error") } :=
  ⟨by unfold PassesValidation; decide, by decide, by decide, by rfl, by decide⟩

/-- C9 (amended). A signup that passes validation and both pre-checks and gets its
token signed, but whose insert the directory rejects, answers with the general
500 `success: false, message: "Internal server error"` of the `catch` block, not
with the 400 of a pre-check failure, and stores no record: the directory is as
the other requests left it. -/
theorem signup_insert_rejected_is_500 (lib : Libs) (cfg : EnvVars) (draws : Draws)
    (others : Interference) (dir : Directory) (email password username secret err : String)
    (hv : PassesValidation email password username)
    (hs : cfg.JWT_SECRET = some secret) (hne : secret ≠ "")
    (hE : (others 0 dir).findOneByEmail email = none)
    (hU : (others 1 (others 0 dir)).findOneByUsername username = none)
    (hsave : (others 2 (others 1 (others 0 dir))).save
      (newUserDoc lib draws email password username) = .error err) :
    (signup lib cfg draws others ⟨some email, some password, some username⟩ dir).res.statusCode
      = 500 ∧
    (signup lib cfg draws others ⟨some email, some password, some username⟩ dir).res.body
      = some (.message false "Internal server error") ∧
    (signup lib cfg draws others ⟨some email, some password, some username⟩ dir).dir
      = others 2 (others 1 (others 0 dir)) := by
  rw [signup_of_valid lib cfg draws others dir email password username hv]
  simp [hE, hU, hsave, generateTokenAndSetCookie_ok lib cfg draws.now draws.newId {} hs hne]

/-- Witness of C9 (amended): the tester's signup raced by another one with the same
e-mail. -/
theorem signup_insert_rejected_is_500_witness :
    (signup toyLibs (ENV_VARS testEnv) testerDraws racingSignup testerBody []).res.statusCode
      = 500 ∧
    (signup toyLibs (ENV_VARS testEnv) testerDraws racingSignup testerBody []).res.body
      = some (.message false "Internal server error") ∧
    (signup toyLibs (ENV_VARS testEnv) testerDraws racingSignup testerBody []).dir
      = racingSignup 2 (racingSignup 1 (racingSignup 0 [])) :=
  signup_insert_rejected_is_500 toyLibs (ENV_VARS testEnv) testerDraws racingSignup []
    "a@b.com" "password" "tester" "testsecret" "E11000 duplicate key error: email"
    (by unfold PassesValidation; decide) (by decide) (by decide) (by decide) (by decide)
    (by rfl)

/-! ## Start-up configuration -/

/-- C10, as stated, fails: with `NODE_ENV=production` and no `JWT_SECRET` the
configuration module loads without error and exports an undefined secret. -/
theorem production_without_secret_still_loads :
    productionEnv.NODE_ENV = some "production" ∧ productionEnv.JWT_SECRET = none ∧
    loadEnvVars productionEnv
      = .ok { MONGO_URI := some "mongodb://db/netflix", PORT := .number 5000,
              JWT_SECRET := none, NODE_ENV := some "production", USE_HTTPS := false,
              TMDB_API_KEY := none } :=
  ⟨rfl, rfl, by rfl⟩

/-- C10 (amended). For every environment in which `NODE_ENV` is `production` and
`JWT_SECRET` is absent or empty, the configuration loads without error and its
`JWT_SECRET` is undefined, so it is not the fallback `testsecret`; the missing
secret shows only when a token is signed: `generateTokenAndSetCookie` then
throws and adds no cookie. -/
theorem loadEnvVars_production_without_secret (env : ProcessEnv)
    (hprod : env.NODE_ENV = some "production")
    (habsent : env.JWT_SECRET = none ∨ env.JWT_SECRET = some "") :
    ∃ cfg, loadEnvVars env = .ok cfg ∧ cfg.JWT_SECRET = none ∧
      cfg.JWT_SECRET ≠ some "testsecret" ∧
      ∀ (lib : Libs) (now : Nat) (userId : String) (res : Res),
        generateTokenAndSetCookie lib cfg now userId res
          = .error "secretOrPrivateKey must have a value" := by
  have hnone : (ENV_VARS env).JWT_SECRET = none := by
    rcases habsent with h | h <;> simp [ENV_VARS, truthy, h, hprod]
  refine ⟨ENV_VARS env, rfl, hnone, by simp [hnone], ?_⟩
  intro lib now userId res
  exact generateTokenAndSetCookie_error lib (ENV_VARS env) now userId res hnone

/-- Witness of C10 (amended): a production environment with an empty `JWT_SECRET`. -/
theorem loadEnvVars_production_without_secret_witness :
    ∃ cfg, loadEnvVars { NODE_ENV := some "production", JWT_SECRET := some "" } = .ok cfg ∧
      cfg.JWT_SECRET = none ∧ cfg.JWT_SECRET ≠ some "testsecret" ∧
      ∀ (lib : Libs) (now : Nat) (userId : String) (res : Res),
        generateTokenAndSetCookie lib cfg now userId res
          = .error "secretOrPrivateKey must have a value" :=
  loadEnvVars_production_without_secret { NODE_ENV := some "production", JWT_SECRET := some "" }
    rfl (Or.inr rfl)

/-! ## The metrics middleware -/

theorem serveRequest_finished (req : Req) (start stop code : Nat) (m : Metrics) :
    (serveRequest req start stop (.finished code) m).httpInProgress = m.httpInProgress ∧
    ∃ labels, labels.status_code = code ∧
      (serveRequest req start stop (.finished code) m).httpRequestDurationSeconds
        = m.httpRequestDurationSeconds ++ [(labels, stop - start)] := by
  by_cases h : code ≥ 400 <;>
    simp [serveRequest, metricsMiddleware, Completion.events, Completion.statusCode, emit, h]

theorem serveRequest_aborted (req : Req) (start stop : Nat) (m : Metrics) :
    serveRequest req start stop .aborted m
      = { m with httpInProgress := m.httpInProgress + 1 } := by
  simp [serveRequest, metricsMiddleware, Completion.events, Completion.statusCode, emit]

/-- C8 fails on the code for a connection that is torn down before the response is
written: the middleware listens for `finish` only, Node then emits `close`
alone, and after the request the gauge stands one above its value before the
request while the histogram has observed nothing. -/
theorem aborted_request_leaves_gauge_incremented :
    serveRequest trendingReq 10 25 .aborted {}
      = { httpInProgress := 1, httpRequestDurationSeconds := [], httpErrors := [] } ∧
    (serveRequest trendingReq 10 25 .aborted {}).httpInProgress
      ≠ ({} : Metrics).httpInProgress := by
  constructor
  · rfl
  · decide

/-! ## The e-mail pattern -/

theorem mem_matchPrefix_cls (p : Char → Bool) (cs rest : List Char) :
    rest ∈ (Regex.cls p).matchPrefix cs ↔ ∃ c, p c = true ∧ cs = c :: rest := by
  cases cs with
  | nil => simp [Regex.matchPrefix]
  | cons c cs =>
    by_cases h : p c = true
    · simp only [Regex.matchPrefix, h, if_true, List.mem_singleton]
      constructor
      · rintro rfl
        exact ⟨c, h, rfl⟩
      · rintro ⟨c', _, hc⟩
        simp only [List.cons.injEq] at hc
        exact hc.2.symm
    · constructor
      · intro hmem
        simp [Regex.matchPrefix, h] at hmem
      · rintro ⟨c', hp, hc⟩
        simp only [List.cons.injEq] at hc
        rw [← hc.1] at hp
        exact absurd hp h

theorem mem_matchPrefix_chr (a : Char) (cs rest : List Char) :
    rest ∈ (Regex.chr a).matchPrefix cs ↔ cs = a :: rest := by
  cases cs with
  | nil => simp [Regex.matchPrefix]
  | cons c cs =>
    by_cases h : c = a
    · simp [Regex.matchPrefix, h, eq_comm]
    · simp [Regex.matchPrefix, h]

theorem mem_matchPrefix_seq (r s : Regex) (cs rest : List Char) :
    rest ∈ (Regex.seq r s).matchPrefix cs
      ↔ ∃ mid, mid ∈ r.matchPrefix cs ∧ rest ∈ s.matchPrefix mid := by
  simp [Regex.matchPrefix, List.mem_flatMap]

theorem mem_plusIter_cls (p : Char → Bool) (fuel : Nat) (cs rest : List Char) :
    rest ∈ plusIter (Regex.cls p).matchPrefix fuel cs
      ↔ ∃ pre, pre ≠ [] ∧ pre.length ≤ fuel ∧ (∀ c ∈ pre, p c = true) ∧ cs = pre ++ rest := by
  induction fuel generalizing cs with
  | zero =>
    simp only [plusIter, List.not_mem_nil, false_iff]
    rintro ⟨pre, hne, hlen, _, _⟩
    exact hne (List.length_eq_zero.1 (Nat.le_zero.1 hlen))
  | succ n ih =>
    simp only [plusIter, List.mem_flatMap, List.mem_cons, mem_matchPrefix_cls]
    constructor
    · rintro ⟨mid, ⟨c, hp, rfl⟩, h | h⟩
      · subst h
        exact ⟨[c], by simp, by simp, by simpa using hp, rfl⟩
      · obtain ⟨pre, _, hlen, hall, rfl⟩ := (ih mid).1 h
        refine ⟨c :: pre, by simp, by simpa using hlen, ?_, rfl⟩
        intro c' hc'
        rcases List.mem_cons.1 hc' with rfl | h'
        · exact hp
        · exact hall c' h'
    · rintro ⟨pre, hne, hlen, hall, rfl⟩
      cases pre with
      | nil => exact absurd rfl hne
      | cons c pre =>
        refine ⟨pre ++ rest, ⟨c, hall c (by simp), rfl⟩, ?_⟩
        by_cases hpre : pre = []
        · left
          simp [hpre]
        · right
          exact (ih (pre ++ rest)).2
            ⟨pre, hpre, by simpa using hlen, fun c' hc' => hall c' (by simp [hc']), rfl⟩

theorem mem_matchPrefix_plus_cls (p : Char → Bool) (cs rest : List Char) :
    rest ∈ (Regex.plus (Regex.cls p)).matchPrefix cs
      ↔ ∃ pre, pre ≠ [] ∧ (∀ c ∈ pre, p c = true) ∧ cs = pre ++ rest := by
  simp only [Regex.matchPrefix, mem_plusIter_cls]
  constructor
  · rintro ⟨pre, hne, _, hall, h⟩
    exact ⟨pre, hne, hall, h⟩
  · rintro ⟨pre, hne, hall, h⟩
    exact ⟨pre, hne, by simp [h], hall, h⟩

theorem emailRegex_matches_iff (cs : List Char) :
    [] ∈ emailRegex.matchPrefix cs
      ↔ ∃ a b c : List Char, cs = a ++ '@' :: (b ++ '.' :: c) ∧
          (a ≠ [] ∧ ∀ ch ∈ a, notSpaceNorAt ch = true) ∧
          (b ≠ [] ∧ ∀ ch ∈ b, notSpaceNorAt ch = true) ∧
          (c ≠ [] ∧ ∀ ch ∈ c, notSpaceNorAt ch = true) := by
  simp only [emailRegex, mem_matchPrefix_seq, mem_matchPrefix_plus_cls, mem_matchPrefix_chr]
  constructor
  · rintro ⟨m1, ⟨a, ha, hpa, rfl⟩, m2, rfl, m3, ⟨b, hb, hpb, rfl⟩, m4, rfl, c, hc, hpc, h⟩
    simp only [List.append_nil] at h
    subst h
    exact ⟨a, b, m4, rfl, ⟨ha, hpa⟩, ⟨hb, hpb⟩, ⟨hc, hpc⟩⟩
  · rintro ⟨a, b, c, rfl, ⟨ha, hpa⟩, ⟨hb, hpb⟩, ⟨hc, hpc⟩⟩
    exact ⟨'@' :: (b ++ '.' :: c), ⟨a, ha, hpa, rfl⟩, b ++ '.' :: c, rfl, '.' :: c,
      ⟨b, hb, hpb, rfl⟩, c, rfl, c, hc, hpc, by simp⟩

theorem notSpaceNorAt_iff (ch : Char) :
    notSpaceNorAt ch = true ↔ isJsWhitespace ch = false ∧ ch ≠ '@' := by
  simp [notSpaceNorAt]

theorem addressPart_iff (part : String) :
    AddressPart part
      ↔ part.toList ≠ [] ∧ ∀ ch ∈ part.toList, notSpaceNorAt ch = true := by
  unfold AddressPart
  constructor
  · rintro ⟨hne, hall⟩
    refine ⟨fun h => hne (String.ext h), fun ch hch => (notSpaceNorAt_iff ch).2 (hall ch hch)⟩
  · rintro ⟨hne, hall⟩
    refine ⟨fun h => hne (by simp [h]), fun ch hch => (notSpaceNorAt_iff ch).1 (hall ch hch)⟩

theorem emailRegex_test_iff_matches (s : String) :
    emailRegex.test s = true ↔ [] ∈ emailRegex.matchPrefix s.toList := by
  simp [Regex.test, List.any_eq_true, List.isEmpty_iff]

theorem eq_address_iff (s a b c : String) :
    s = a ++ "@" ++ b ++ "." ++ c
      ↔ s.toList = a.toList ++ '@' :: (b.toList ++ '.' :: c.toList) := by
  constructor
  · rintro rfl
    simp [String.toList]
  · intro h
    apply String.ext
    simpa [String.toList] using h

/-- C11. The e-mail format check of `signup` accepts a string exactly when it can be
written as `a ++ "@" ++ b ++ "." ++ c` with `a`, `b` and `c` each non-empty and
free of white space and of `@`; hence every accepted address has exactly one
`@`, no white space, and after the `@` a `.` with at least one character
between the two and at least one character after it. -/
theorem emailRegex_accepts_iff (s : String) :
    (emailRegex.test s = true
      ↔ ∃ a b c : String, s = a ++ "@" ++ b ++ "." ++ c ∧
          AddressPart a ∧ AddressPart b ∧ AddressPart c) ∧
    (emailRegex.test s = true →
      s.toList.count '@' = 1 ∧
      (∀ ch ∈ s.toList, isJsWhitespace ch = false) ∧
      ∃ a b c : List Char, s.toList = a ++ '@' :: (b ++ '.' :: c) ∧ '@' ∉ a ∧
        b ≠ [] ∧ c ≠ []) := by
  have hiff : emailRegex.test s = true
      ↔ ∃ a b c : String, s = a ++ "@" ++ b ++ "." ++ c ∧
          AddressPart a ∧ AddressPart b ∧ AddressPart c := by
    rw [emailRegex_test_iff_matches, emailRegex_matches_iff]
    constructor
    · rintro ⟨a, b, c, h, ha, hb, hc⟩
      exact ⟨⟨a⟩, ⟨b⟩, ⟨c⟩, (eq_address_iff s ⟨a⟩ ⟨b⟩ ⟨c⟩).2 h,
        (addressPart_iff ⟨a⟩).2 ha, (addressPart_iff ⟨b⟩).2 hb, (addressPart_iff ⟨c⟩).2 hc⟩
    · rintro ⟨a, b, c, h, ha, hb, hc⟩
      exact ⟨a.toList, b.toList, c.toList, (eq_address_iff s a b c).1 h,
        (addressPart_iff a).1 ha, (addressPart_iff b).1 hb, (addressPart_iff c).1 hc⟩
  refine ⟨hiff, fun hacc => ?_⟩
  obtain ⟨a, b, c, h, ha, hb, hc⟩ := hiff.1 hacc
  have hl := (eq_address_iff s a b c).1 h
  have hb' := (addressPart_iff b).1 hb
  have hc' := (addressPart_iff c).1 hc
  have hna : '@' ∉ a.toList := fun hm => (ha.2 '@' hm).2 rfl
  have hnb : '@' ∉ b.toList := fun hm => (hb.2 '@' hm).2 rfl
  have hnc : '@' ∉ c.toList := fun hm => (hc.2 '@' hm).2 rfl
  refine ⟨?_, ?_, a.toList, b.toList, c.toList, hl, hna, hb'.1, hc'.1⟩
  · have h0a : List.count '@' a.data = 0 := List.count_eq_zero.2 hna
    have h0b : List.count '@' b.data = 0 := List.count_eq_zero.2 hnb
    have h0c : List.count '@' c.data = 0 := List.count_eq_zero.2 hnc
    rw [hl]
    simp [List.count_append, List.count_cons, h0a, h0b, h0c]
  · intro ch hch
    rw [hl] at hch
    simp only [List.mem_append, List.mem_cons] at hch
    rcases hch with h1 | rfl | h1 | rfl | h1
    · exact (ha.2 ch h1).1
    · decide
    · exact (hb.2 ch h1).1
    · decide
    · exact (hc.2 ch h1).1

/-- Witness of C11: the address of the integration test is accepted and splits as
`a`, `b`, `com`. -/
theorem emailRegex_accepts_iff_witness :
    emailRegex.test "a@b.com" = true ∧
    (∃ a b c : String, "a@b.com" = a ++ "@" ++ b ++ "." ++ c ∧
        AddressPart a ∧ AddressPart b ∧ AddressPart c) ∧
    "a@b.com".toList.count '@' = 1 ∧
    (∀ ch ∈ "a@b.com".toList, isJsWhitespace ch = false) ∧
    (∃ a b c : List Char, "a@b.com".toList = a ++ '@' :: (b ++ '.' :: c) ∧ '@' ∉ a ∧
        b ≠ [] ∧ c ≠ []) ∧
    emailRegex.test "a b@c.d" = false ∧
    ¬ ∃ a b c : String, "a b@c.d" = a ++ "@" ++ b ++ "." ++ c ∧
        AddressPart a ∧ AddressPart b ∧ AddressPart c :=
  have hacc : emailRegex.test "a@b.com" = true := by decide
  have hrej : emailRegex.test "a b@c.d" = false := by decide
  ⟨hacc, (emailRegex_accepts_iff "a@b.com").1.1 hacc,
    ((emailRegex_accepts_iff "a@b.com").2 hacc).1,
    ((emailRegex_accepts_iff "a@b.com").2 hacc).2.1,
    ((emailRegex_accepts_iff "a@b.com").2 hacc).2.2,
    hrej,
    fun h => by
      have := (emailRegex_accepts_iff "a b@c.d").1.2 h
      rw [hrej] at this
      exact Bool.noConfusion this⟩

end Netflix
